import Mathlib

/-
Shallow embedding of the request-admission and job-execution pipeline of
server.js (pdf-converter-server).

Modelling conventions:
- JS `Map` objects keyed by client IP are modelled as functions
  `String → Option RateEntry` (keys are unique in a Map, so the
  association is a partial function).
- Timestamps (`Date.now()`) and window durations are `Int` milliseconds.
- JS strings are Lean `String`s; `toLowerCase` is modelled by ASCII case
  folding (all scanned markers are ASCII).
- The filesystem is a flat list of existing paths; `fs.unlinkSync` raises
  on a missing path (modelled by `Option`), `fs.rmSync` with
  `recursive: true, force: true` never raises.
- The `exec` callback is continuation-passing in JS; it is modelled as a
  pure function of the captured subprocess result
  (`error` flag, `stdout`, `stderr`).
- JS numbers appear in the compression-strategy logic where a division by
  zero can occur; they are modelled by `JsNum`: an exact rational together
  with the IEEE special values (±∞, NaN).  The branches proved about this
  logic only ever compare ±∞ or NaN against the thresholds, where the
  idealization of doubles by rationals is exact.
-/

/-- ASCII lower-casing of one character, as `String.prototype.toLowerCase`
acts on the ASCII diagnostic text the server scans. -/
def lowerChar (c : Char) : Char :=
  if 'A' ≤ c ∧ c ≤ 'Z' then Char.ofNat (c.toNat + 32) else c

/-- JS `s.toLowerCase()` on ASCII text. -/
def lowerStr (s : String) : String := String.mk (s.data.map lowerChar)

/-- Bool test that the first list is an initial segment of the second. -/
def listStartsWith : List Char → List Char → Bool
  | [], _ => true
  | _ :: _, [] => false
  | a :: as, b :: bs => (a == b) && listStartsWith as bs

/-- Bool test that `needle` occurs contiguously somewhere in the list. -/
def listContainsSeq (needle : List Char) : List Char → Bool
  | [] => needle.isEmpty
  | c :: rest => listStartsWith needle (c :: rest) || listContainsSeq needle rest

/-- JS `hay.includes(needle)`. -/
def strIncludes (hay needle : String) : Bool := listContainsSeq needle.data hay.data

/-- JS `hay.startsWith(needle)`; used to model paths lying under a directory. -/
def strStartsWith (hay needle : String) : Bool := listStartsWith needle.data hay.data

/-- One per-client bucket of a rate-limit store:
`{ count, windowStart }` from `createIpRateLimiter`. -/
structure RateEntry where
  count : Nat
  windowStart : Int
deriving DecidableEq

/-- What a limiter invocation does with the request: `next()` (allowed) or a
429 with the surfaced `Retry-After` value (already floored at 1, as the
header is set to `Math.max(retryAfterSeconds, 1)`). -/
inductive RateDecision where
  | allowed : RateDecision
  | denied (retryAfterSeconds : Int) : RateDecision
deriving DecidableEq

/-- A rate-limit store (`globalIpHits` / `heavyIpHits`): a JS Map from client
identity to its window entry. -/
abbrev Store : Type := String → Option RateEntry

/-- A Map with no entries (module initialization: `new Map()`). -/
def emptyStore : Store := fun _ => none

/-- JS `store.set(ip, e)`. -/
def setEntry (s : Store) (ip : String) (e : RateEntry) : Store :=
  fun k => if k = ip then some e else s k

/-- `clearExpired(store, now, windowMs)`: delete every entry whose window has
fully elapsed (`now - bucket.windowStart >= windowMs`). -/
def clearExpired (s : Store) (now windowMs : Int) : Store :=
  fun k =>
    match s k with
    | none => none
    | some e => if now - e.windowStart ≥ windowMs then none else some e

/-- `Math.ceil(a / b)` for integer `a` and positive integer `b`
(the server only uses `b = 1000`). -/
def ceilDiv (a b : Int) : Int := -((-a).fdiv b)

/-- One invocation of the gate function produced by `createIpRateLimiter`
for a given client `ip` at time `now`:
clear expired entries, then either start a fresh window (allow) or
increment the count and deny once it exceeds `maxRequests`. -/
def limiterStep (s : Store) (ip : String) (now : Int) (maxRequests : Nat)
    (windowMs : Int) : Store × RateDecision :=
  let cleared := clearExpired s now windowMs
  match cleared ip with
  | none => (setEntry cleared ip ⟨1, now⟩, .allowed)
  | some existing =>
    if now - existing.windowStart ≥ windowMs then
      (setEntry cleared ip ⟨1, now⟩, .allowed)
    else
      let updated : RateEntry := ⟨existing.count + 1, existing.windowStart⟩
      let s2 := setEntry cleared ip updated
      if updated.count > maxRequests then
        (s2, .denied (max (ceilDiv (windowMs - (now - existing.windowStart)) 1000) 1))
      else
        (s2, .allowed)

/-- A sequence of limiter invocations for one client at the given times,
threading the store and collecting the decisions. -/
def runRequests (ip : String) (maxRequests : Nat) (windowMs : Int) :
    Store → List Int → Store × List RateDecision
  | s, [] => (s, [])
  | s, t :: ts =>
    let r := limiterStep s ip t maxRequests windowMs
    let rest := runRequests ip maxRequests windowMs r.1 ts
    (rest.1, r.2 :: rest.2)

/-- An HTTP response as far as the admission/classification logic is
concerned: status code, optional `Retry-After` header, body text
(for a successful download, the offered filename). -/
structure HttpResponse where
  status : Nat
  retryAfter : Option Int
  body : String
deriving DecidableEq

/-- The fixed denial of `limitConcurrentHeavyJobs`:
`Retry-After: 10`, status 429. -/
def busyResponse : HttpResponse :=
  ⟨429, some 10, "Server is busy. Please retry shortly."⟩

/-- The admission half of `limitConcurrentHeavyJobs`: given the current
`activeHeavyJobs` counter and the configured cap, either deny (counter
untouched) or increment and call `next()` (modelled by `none`). -/
def gateAdmit (active cap : Int) : Int × Option HttpResponse :=
  if active ≥ cap then (active, some busyResponse)
  else (active + 1, none)

/-- The shared `release` closure of `limitConcurrentHeavyJobs`, wired to both
`res.on('finish', release)` and `res.on('close', release)`.  State: the
global counter together with the per-job `released` flag. -/
def jobRelease (st : Int × Bool) : Int × Bool :=
  if st.2 then st else (max (st.1 - 1) 0, true)

/-- `checkPasswordError(stderr, stdout)`: the combined diagnostic text,
lower-cased, contains a credential/encryption marker. -/
def checkPasswordError (stderr stdout : String) : Bool :=
  let output := lowerStr (stderr ++ stdout)
  strIncludes output "password" || strIncludes output "encrypted" ||
    strIncludes output "this file requires a password"

/-- The `/convert` route's `exec` callback: password check first, then
generic error, else download `converted-cmyk.pdf`. -/
def convertExecCallback (error : Bool) (stdout stderr : String) : HttpResponse :=
  if checkPasswordError stderr stdout then ⟨401, none, "PASSWORD_REQUIRED"⟩
  else if error then ⟨500, none, "Error converting file."⟩
  else ⟨200, none, "converted-cmyk.pdf"⟩

/-- The `/compress` route's `exec` callback (same classification order). -/
def compressExecCallback (error : Bool) (stdout stderr : String) : HttpResponse :=
  if checkPasswordError stderr stdout then ⟨401, none, "PASSWORD_REQUIRED"⟩
  else if error then ⟨500, none, "Compression failed."⟩
  else ⟨200, none, "compressed.pdf"⟩

/-- The `/unlock` route's `exec` callback: unlike the other routes it checks
`error || stderr.toLowerCase().includes('password')` (stdout is ignored,
and only the one marker is looked for); on that condition it answers 401,
otherwise it downloads `unlocked.pdf`. -/
def unlockExecCallback (error : Bool) (stdout stderr : String) : HttpResponse :=
  if error || strIncludes (lowerStr stderr) "password" then
    ⟨401, none, "Incorrect Password or File Error"⟩
  else ⟨200, none, "unlocked.pdf"⟩

/-- JS `fs.existsSync(p)` over the flat path-list filesystem model. -/
def existsSync (fs : List String) (p : String) : Bool := decide (p ∈ fs)

/-- JS `fs.unlinkSync(p)`: removes the path; raises (modelled as `none`)
when the path does not exist. -/
def unlinkSyncM (fs : List String) (p : String) : Option (List String) :=
  if existsSync fs p then some (fs.filter (fun q => decide (q ≠ p))) else none

/-- JS `fs.rmSync(dir, { recursive: true, force: true })`: removes the
directory and everything under it; `force` means it never raises. -/
def rmSyncRF (fs : List String) (dir : String) : List String :=
  fs.filter (fun q => !(decide (q = dir) || strStartsWith q (dir ++ "/")))

/-- One `if (p && fs.existsSync(p)) fs.unlinkSync(p)` step of `cleanup`
(`none` argument models a `null`/absent path). -/
def guardedUnlink (fs : List String) (po : Option String) : Option (List String) :=
  match po with
  | none => some fs
  | some p => if existsSync fs p then unlinkSyncM fs p else some fs

/-- The `if (extraDir && fs.existsSync(extraDir)) fs.rmSync(...)` step. -/
def guardedRm (fs : List String) (po : Option String) : Option (List String) :=
  match po with
  | none => some fs
  | some p => if existsSync fs p then some (rmSyncRF fs p) else some fs

/-- The body of `cleanup` before the `catch`: `none` models an exception
reaching the handler. -/
def cleanupTry (fs : List String) (input output extraDir : Option String) :
    Option (List String) :=
  match guardedUnlink fs input with
  | none => none
  | some f1 =>
    match guardedUnlink f1 output with
    | none => none
    | some f2 => guardedRm f2 extraDir

/-- `cleanup(input, output, extraDir)`: the `catch` swallows any exception
(it only logs).  The `none` branch is in fact unreachable — see
`cleanup_total_idempotent` — so the filesystem it returns there is
irrelevant to every theorem below. -/
def cleanup (fs : List String) (input output extraDir : Option String) :
    List String :=
  match cleanupTry fs input output extraDir with
  | some f => f
  | none => fs

/-- JS `x || 'd'` for a string-valued request field (absent or empty is
falsy). -/
def orDefault (v : Option String) (d : String) : String :=
  match v with
  | none => d
  | some "" => d
  | some s => s

/-- `fs.readdirSync(outputDir).length`: how many produced artifacts lie
under the output directory. -/
def readdirCount (fs : List String) (dir : String) : Nat :=
  (fs.filter (fun p => strStartsWith p (dir ++ "/"))).length

/-- Result of the `/extract` route's `exec` callback: the response plus the
filesystem after the cleanup it triggered. -/
structure ExtractOutcome where
  resp : HttpResponse
  fs : List String
deriving DecidableEq

/-- The `/extract` route's `exec` callback: password check, generic error
check, then the empty-output check (422 with a mode-specific message),
else zip and download; `zipOk` captures whether the archiver succeeded. -/
def extractExecCallback (fs0 : List String) (inputPath outputDir : String)
    (mode format : Option String) (error : Bool) (stdout stderr : String)
    (zipOk : Bool) : ExtractOutcome :=
  let effMode := orDefault mode "images"
  let effFormat := orDefault format "png"
  if checkPasswordError stderr stdout then
    ⟨⟨401, none, "PASSWORD_REQUIRED"⟩, cleanup fs0 (some inputPath) none (some outputDir)⟩
  else if error then
    ⟨⟨500, none, "Processing failed."⟩, cleanup fs0 (some inputPath) none (some outputDir)⟩
  else if readdirCount fs0 outputDir = 0 then
    ⟨⟨422, none,
        if effMode = "images" then "No embedded images found. Try \"Extract Pages\" instead."
        else "Could not render pages."⟩,
      cleanup fs0 (some inputPath) none (some outputDir)⟩
  else
    let zipPath := outputDir ++ ".zip"
    let fs1 := zipPath :: fs0
    if zipOk then
      ⟨⟨200, none, (if effMode = "pages" then "pages_" else "images_") ++ effFormat ++ ".zip"⟩,
        cleanup fs1 (some inputPath) (some zipPath) (some outputDir)⟩
    else
      ⟨⟨500, none, "Zip creation failed."⟩,
        cleanup fs1 (some inputPath) (some zipPath) (some outputDir)⟩

/-- A JS number as the compression-strategy logic needs it: an exact
rational or one of the IEEE special values. -/
inductive JsNum where
  | finite (q : Rat) : JsNum
  | posInf : JsNum
  | negInf : JsNum
  | nan : JsNum
deriving DecidableEq

/-- IEEE-754 division as JS performs it (signed zeros are not modelled:
every zero the server produces is `+0`). -/
def JsNum.div : JsNum → JsNum → JsNum
  | .nan, _ => .nan
  | _, .nan => .nan
  | .finite a, .finite b =>
    if b = 0 then (if 0 < a then .posInf else if a < 0 then .negInf else .nan)
    else .finite (a / b)
  | .posInf, .finite b => if 0 ≤ b then .posInf else .negInf
  | .negInf, .finite b => if 0 ≤ b then .negInf else .posInf
  | .finite _, .posInf => .finite 0
  | .finite _, .negInf => .finite 0
  | .posInf, .posInf => .nan
  | .posInf, .negInf => .nan
  | .negInf, .posInf => .nan
  | .negInf, .negInf => .nan

/-- JS `x >= y` (false whenever either side is NaN). -/
def JsNum.jge : JsNum → JsNum → Bool
  | .nan, _ => false
  | _, .nan => false
  | .finite a, .finite b => decide (b ≤ a)
  | .finite _, .posInf => false
  | .finite _, .negInf => true
  | .posInf, _ => true
  | .negInf, .negInf => true
  | .negInf, _ => false

/-- JS `x < y` (false whenever either side is NaN). -/
def JsNum.jlt : JsNum → JsNum → Bool
  | .nan, _ => false
  | _, .nan => false
  | .finite a, .finite b => decide (a < b)
  | .finite _, .posInf => true
  | .finite _, .negInf => false
  | .posInf, _ => false
  | .negInf, .negInf => false
  | .negInf, _ => true

/-- JS `x > y`. -/
def JsNum.jgt (x y : JsNum) : Bool := JsNum.jlt y x

/-- `getFileSizeMB(path)`: `fs.statSync(path).size / (1024 * 1024)`, and `0`
when `statSync` raises (the `catch` branch); the stat result is the
`Option Nat` input. -/
def getFileSizeMB (statSize : Option Nat) : Rat :=
  match statSize with
  | some sz => (sz : Rat) / (1024 * 1024)
  | none => 0

/-- The `/compress` route's Ghostscript-profile strategy logic: `gsSettings`
as a function of `mode`, the parsed `value` and `originalSize`. -/
def compressStrategy (mode : Option String) (value : JsNum) (originalSize : Rat) :
    String :=
  if mode = some "target" then
    let requiredRatio := JsNum.div value (.finite originalSize)
    if requiredRatio.jge (.finite 1) then "/printer"
    else if requiredRatio.jlt (.finite (0.2 : Rat)) then "/screen"
    else if requiredRatio.jlt (.finite (0.6 : Rat)) then "/ebook"
    else "/printer"
  else if mode = some "percentage" then
    if JsNum.jgt value (.finite 75) then "/prepress"
    else if JsNum.jgt value (.finite 50) then "/printer"
    else if JsNum.jgt value (.finite 25) then "/ebook"
    else "/screen"
  else "/ebook"

/-- What the server holds at module level: the two limiter Maps and the
heavy-job counter. -/
structure ServerState where
  globalStore : Store
  heavyStore : Store
  activeHeavyJobs : Int

/-- One invocation of the heavy-route limiter middleware on the server
state: it reads and writes `heavyIpHits` only. -/
def heavyLimiterCall (st : ServerState) (ip : String) (now : Int)
    (maxRequests : Nat) (windowMs : Int) : ServerState × RateDecision :=
  let r := limiterStep st.heavyStore ip now maxRequests windowMs
  (⟨st.globalStore, r.1, st.activeHeavyJobs⟩, r.2)

/-- One invocation of the global limiter middleware on the server state: it
reads and writes `globalIpHits` only. -/
def globalLimiterCall (st : ServerState) (ip : String) (now : Int)
    (maxRequests : Nat) (windowMs : Int) : ServerState × RateDecision :=
  let r := limiterStep st.globalStore ip now maxRequests windowMs
  (⟨r.1, st.heavyStore, st.activeHeavyJobs⟩, r.2)

/-- Any sequence of heavy-limiter invocations (client, time) applied to the
server state. -/
def runHeavyCalls (maxRequests : Nat) (windowMs : Int) :
    ServerState → List (String × Int) → ServerState
  | st, [] => st
  | st, e :: evs =>
    runHeavyCalls maxRequests windowMs (heavyLimiterCall st e.1 e.2 maxRequests windowMs).1 evs

/-- Any sequence of global-limiter invocations applied to the server state. -/
def runGlobalCalls (maxRequests : Nat) (windowMs : Int) :
    ServerState → List (String × Int) → ServerState
  | st, [] => st
  | st, e :: evs =>
    runGlobalCalls maxRequests windowMs (globalLimiterCall st e.1 e.2 maxRequests windowMs).1 evs

/-- Everything observable about one request to the `/convert` route chain
`globalRateLimit → heavyRouteRateLimit → limitConcurrentHeavyJobs →
upload → handler`: the response, both stores, the counter while the
handler/response is pending, the counter after the finish/close release
events fired, and whether a gate slot was acquired at all. -/
structure RouteRun where
  resp : HttpResponse
  globalStore : Store
  heavyStore : Store
  activeDuring : Int
  activeAfter : Int
  slotAcquired : Bool

/-- The `/convert` route chain on one request.  `hasFile` is whether multer
attached `req.file`; the subprocess result (`error`, `stdout`, `stderr`)
parametrizes the `exec` callback.  Both `res.on('finish')` and
`res.on('close')` fire the shared release closure after the response. -/
def convertRoute (gstore hstore : Store) (active : Int) (ip : String) (now : Int)
    (maxGlobal maxHeavy : Nat) (windowMs cap : Int)
    (hasFile error : Bool) (stdout stderr : String) : RouteRun :=
  let g := limiterStep gstore ip now maxGlobal windowMs
  match g.2 with
  | .denied r =>
    ⟨⟨429, some r, "Too many requests. Please try again later."⟩,
      g.1, hstore, active, active, false⟩
  | .allowed =>
    let h := limiterStep hstore ip now maxHeavy windowMs
    match h.2 with
    | .denied r =>
      ⟨⟨429, some r, "Too many conversion requests. Please wait and retry."⟩,
        g.1, h.1, active, active, false⟩
    | .allowed =>
      let ga := gateAdmit active cap
      match ga.2 with
      | some resp => ⟨resp, g.1, h.1, active, active, false⟩
      | none =>
        let resp :=
          if hasFile then convertExecCallback error stdout stderr
          else ⟨400, none, "No file uploaded."⟩
        let afterFinish := jobRelease (ga.1, false)
        let afterClose := jobRelease afterFinish
        ⟨resp, g.1, h.1, ga.1, afterClose.1, true⟩

/-! ### Helper lemmas about the rate-limit store -/

lemma setEntry_same (s : Store) (ip : String) (e : RateEntry) :
    setEntry s ip e ip = some e := by
  simp [setEntry]

lemma clearExpired_none (s : Store) (now W : Int) (ip : String) (h : s ip = none) :
    clearExpired s now W ip = none := by
  simp [clearExpired, h]

lemma clearExpired_expired (s : Store) (now W : Int) (ip : String) (e : RateEntry)
    (h : s ip = some e) (hw : W ≤ now - e.windowStart) :
    clearExpired s now W ip = none := by
  simp only [clearExpired, h]
  rw [if_pos (by omega)]

lemma clearExpired_live (s : Store) (now W : Int) (ip : String) (e : RateEntry)
    (h : s ip = some e) (hw : now - e.windowStart < W) :
    clearExpired s now W ip = some e := by
  simp only [clearExpired, h]
  rw [if_neg (by omega)]

lemma limiterStep_fresh (s : Store) (ip : String) (now : Int) (N : Nat) (W : Int)
    (h : clearExpired s now W ip = none) :
    limiterStep s ip now N W =
      (setEntry (clearExpired s now W) ip ⟨1, now⟩, RateDecision.allowed) := by
  simp only [limiterStep, h]

lemma limiterStep_live (s : Store) (ip : String) (now : Int) (N : Nat) (W : Int)
    (e : RateEntry) (h : s ip = some e) (hw : now - e.windowStart < W) :
    limiterStep s ip now N W =
      (setEntry (clearExpired s now W) ip ⟨e.count + 1, e.windowStart⟩,
        if N < e.count + 1 then
          RateDecision.denied (max (ceilDiv (W - (now - e.windowStart)) 1000) 1)
        else RateDecision.allowed) := by
  have hc := clearExpired_live s now W ip e h hw
  simp only [limiterStep, hc]
  rw [if_neg (by omega)]
  by_cases hcnt : N < e.count + 1
  · simp only [gt_iff_lt, hcnt, if_true]
  · simp only [gt_iff_lt, hcnt, if_false]

lemma runRequests_entry (ip : String) (N : Nat) (W : Int) :
    ∀ (ts : List Int) (s : Store) (c : Nat) (t1 : Int),
      s ip = some ⟨c, t1⟩ → (∀ t ∈ ts, t - t1 < W) →
      (runRequests ip N W s ts).1 ip = some ⟨c + ts.length, t1⟩ := by
  intro ts
  induction ts with
  | nil =>
    intro s c t1 h _
    simpa [runRequests] using h
  | cons t ts ih =>
    intro s c t1 h hall
    have hw : t - t1 < W := hall t (by simp)
    have hstep := limiterStep_live s ip t N W ⟨c, t1⟩ h hw
    have hs' : (limiterStep s ip t N W).1 ip = some ⟨c + 1, t1⟩ := by
      rw [hstep]
      exact setEntry_same _ _ _
    have hrec := ih (limiterStep s ip t N W).1 (c + 1) t1 hs'
      (fun t' ht' => hall t' (by simp [ht']))
    have harith : c + 1 + ts.length = c + (t :: ts).length := by
      simp [List.length_cons]; omega
    rw [harith] at hrec
    simpa [runRequests] using hrec

/-- C1 (counterexample): with `maxRequests = 0` and window 1000 ms the very
first — that is, the `(N+1)`-st with `N = 0` — request of a window is
still allowed by `createIpRateLimiter` (the fresh-window branch always
answers `next()`), where the claim predicts denial of the `(N+1)`-st
request within one window for every configured `maxRequests N`. -/
theorem rate_limiter_zero_max_first_request_allowed :
    (runRequests "203.0.113.9" 0 1000 emptyStore [5]).2 = [RateDecision.allowed] := by
  decide

/-- C1 (amended): for every client and limiter configuration — with no
existing entry, or when the entry's window has elapsed
(`windowMs ≤ now - windowStart`), the request creates/replaces the entry
as `{count: 1, windowStart: now}` and is allowed (in particular the first
request after the window has elapsed is allowed); otherwise the count is
incremented and the request is denied exactly when `count > maxRequests`,
with `retryAfterSeconds = ceil((windowMs - (now - windowStart)) / 1000)`
floored at 1; and — provided `maxRequests ≥ 1` — the `(N+1)`-st request
within one window is denied. -/
theorem rate_limiter_window_spec (ip : String) (N : Nat) (W : Int) :
    (∀ (s : Store) (now : Int),
      (s ip = none ∨ ∃ e, s ip = some e ∧ W ≤ now - e.windowStart) →
      (limiterStep s ip now N W).1 ip = some ⟨1, now⟩ ∧
      (limiterStep s ip now N W).2 = RateDecision.allowed) ∧
    (∀ (s : Store) (now : Int) (e : RateEntry), s ip = some e → now - e.windowStart < W →
      (limiterStep s ip now N W).1 ip = some ⟨e.count + 1, e.windowStart⟩ ∧
      ((limiterStep s ip now N W).2 = RateDecision.allowed ↔ e.count + 1 ≤ N) ∧
      (N < e.count + 1 →
        (limiterStep s ip now N W).2 =
          RateDecision.denied (max (ceilDiv (W - (now - e.windowStart)) 1000) 1))) ∧
    (∀ (t1 : Int) (ts : List Int) (tlast : Int), 1 ≤ N → ts.length = N - 1 →
      (∀ t ∈ ts, t - t1 < W) → tlast - t1 < W →
      (limiterStep (runRequests ip N W emptyStore (t1 :: ts)).1 ip tlast N W).2 =
        RateDecision.denied (max (ceilDiv (W - (tlast - t1)) 1000) 1)) := by
  refine ⟨?_, ?_, ?_⟩
  · intro s now h
    have hc : clearExpired s now W ip = none := by
      rcases h with h | ⟨e, he, hw⟩
      · exact clearExpired_none s now W ip h
      · exact clearExpired_expired s now W ip e he hw
    rw [limiterStep_fresh s ip now N W hc]
    exact ⟨setEntry_same _ _ _, rfl⟩
  · intro s now e he hw
    have hstep := limiterStep_live s ip now N W e he hw
    refine ⟨?_, ?_, ?_⟩
    · rw [hstep]; exact setEntry_same _ _ _
    · rw [hstep]
      by_cases hcnt : N < e.count + 1 <;> simp [hcnt] <;> omega
    · intro hcnt
      rw [hstep]
      simp [hcnt]
  · intro t1 ts tlast hN hlen hall hlast
    have hfresh := limiterStep_fresh emptyStore ip t1 N W
      (clearExpired_none emptyStore t1 W ip rfl)
    have hs1 : (limiterStep emptyStore ip t1 N W).1 ip = some ⟨1, t1⟩ := by
      rw [hfresh]; exact setEntry_same _ _ _
    have hrun : (runRequests ip N W emptyStore (t1 :: ts)).1 ip = some ⟨N, t1⟩ := by
      have := runRequests_entry ip N W ts (limiterStep emptyStore ip t1 N W).1 1 t1 hs1 hall
      have harith : 1 + ts.length = N := by omega
      rw [harith] at this
      simpa [runRequests] using this
    have hstep := limiterStep_live (runRequests ip N W emptyStore (t1 :: ts)).1 ip tlast N W
      ⟨N, t1⟩ hrun hlast
    rw [hstep]
    simp

/-- C1 (witness): a concrete run — limiter with max 2 per 60000 ms window;
after two requests of client 198.51.100.7 at times 0 and 10, the third
request at time 20 (all inside one window) is denied with the computed
retry-after, and a first request on an empty store is allowed. -/
theorem rate_limiter_window_spec_witness :
    (limiterStep (runRequests "198.51.100.7" 2 60000 emptyStore [0, 10]).1
        "198.51.100.7" 20 2 60000).2 =
      RateDecision.denied (max (ceilDiv (60000 - (20 - 0)) 1000) 1) ∧
    (limiterStep emptyStore "198.51.100.7" 5 2 60000).2 = RateDecision.allowed := by
  constructor
  · exact (rate_limiter_window_spec "198.51.100.7" 2 60000).2.2 0 [10] 20
      (by decide) (by decide) (by decide) (by decide)
  · exact ((rate_limiter_window_spec "198.51.100.7" 2 60000).1 emptyStore 5 (Or.inl rfl)).2

/-! ### Concurrency gate -/

lemma jobRelease_once (a : Int) (h : 0 ≤ a) : jobRelease (a + 1, false) = (a, true) := by
  simp only [jobRelease]
  norm_num
  omega

lemma jobRelease_iterate (a : Int) (h : 0 ≤ a) :
    ∀ n : Nat, 1 ≤ n → jobRelease^[n] (a + 1, false) = (a, true) := by
  intro n
  induction n with
  | zero => omega
  | succ k ih =>
    intro _
    rcases Nat.eq_zero_or_pos k with hk | hk
    · subst hk
      simpa using jobRelease_once a h
    · rw [Function.iterate_succ_apply', ih hk]
      simp [jobRelease]

/-- C2: the concurrency gate `limitConcurrentHeavyJobs` admits (calls
`next()`) and increments `activeHeavyJobs` iff the current count is
strictly below the configured cap; at or above the cap it denies with the
fixed 429 response carrying `Retry-After: 10` and leaves the counter
unchanged.  With cap 2 the first two of three admissions from an idle gate
succeed and the third is denied; after any admitted job releases its slot
the next admission succeeds. -/
theorem concurrency_gate_spec (active cap : Int) :
    ((gateAdmit active cap).2 = none ↔ active < cap) ∧
    (active < cap → gateAdmit active cap = (active + 1, none)) ∧
    (cap ≤ active → gateAdmit active cap = (active, some busyResponse)) ∧
    busyResponse.retryAfter = some 10 ∧
    (gateAdmit 0 2 = (1, none) ∧ gateAdmit 1 2 = (2, none) ∧
      gateAdmit 2 2 = (2, some busyResponse)) ∧
    (∀ a : Int, 1 ≤ a → a ≤ cap → (gateAdmit (jobRelease (a, false)).1 cap).2 = none) := by
  refine ⟨?_, ?_, ?_, rfl, by decide, ?_⟩
  · unfold gateAdmit
    by_cases h : active ≥ cap
    · rw [if_pos h]; simp; omega
    · rw [if_neg h]; simp; omega
  · intro h
    unfold gateAdmit
    rw [if_neg (by omega)]
  · intro h
    unfold gateAdmit
    rw [if_pos (by omega)]
  · intro a h1 h2
    have hrel : (jobRelease (a, false)).1 = a - 1 := by
      simp only [jobRelease]
      norm_num
      omega
    rw [hrel]
    unfold gateAdmit
    rw [if_neg (by omega)]

/-- C2 (witness): concrete gate runs at cap 2. -/
theorem concurrency_gate_spec_witness :
    gateAdmit 1 2 = (2, none) ∧ gateAdmit 2 2 = (2, some busyResponse) ∧
    (gateAdmit (jobRelease (2, false)).1 2).2 = none := by
  refine ⟨(concurrency_gate_spec 1 2).2.1 (by decide),
    (concurrency_gate_spec 2 2).2.2.1 (by decide),
    (concurrency_gate_spec 0 2).2.2.2.2.2 2 (by decide) (by decide)⟩

/-- C3: for an admitted job (counter `a < cap`, fresh `released` flag) the
shared release closure — wired to both `res.on('finish')` and
`res.on('close')` — applied any positive number of times decrements the
counter by exactly one, never two; the counter stays non-negative and at
the moment of admission never exceeds the cap. -/
theorem release_idempotent_spec (a cap : Int) (n : Nat)
    (ha : 0 ≤ a) (hlt : a < cap) (hn : 1 ≤ n) :
    gateAdmit a cap = (a + 1, none) ∧
    a + 1 ≤ cap ∧
    jobRelease^[n] (a + 1, false) = (a, true) ∧
    0 ≤ (jobRelease^[n] (a + 1, false)).1 ∧
    (∀ x : Int, 0 ≤ (jobRelease (x, false)).1) := by
  refine ⟨?_, by omega, jobRelease_iterate a ha n hn, ?_, ?_⟩
  · unfold gateAdmit
    rw [if_neg (by omega)]
  · rw [jobRelease_iterate a ha n hn]
    exact ha
  · intro x
    simp only [jobRelease]
    norm_num

/-- C3 (witness): one admission at cap 2 followed by both release events. -/
theorem release_idempotent_spec_witness :
    gateAdmit 0 2 = (0 + 1, none) ∧ jobRelease^[2] (0 + 1, false) = (0, true) := by
  have h := release_idempotent_spec 0 2 2 (by decide) (by decide) (by decide)
  exact ⟨h.1, h.2.2.1⟩

/-! ### Limiter store independence -/

lemma runHeavyCalls_globalStore (m : Nat) (w : Int) :
    ∀ (evs : List (String × Int)) (st : ServerState),
      (runHeavyCalls m w st evs).globalStore = st.globalStore := by
  intro evs
  induction evs with
  | nil => intro st; rfl
  | cons e evs ih =>
    intro st
    simp only [runHeavyCalls]
    rw [ih]
    rfl

lemma runGlobalCalls_heavyStore (m : Nat) (w : Int) :
    ∀ (evs : List (String × Int)) (st : ServerState),
      (runGlobalCalls m w st evs).heavyStore = st.heavyStore := by
  intro evs
  induction evs with
  | nil => intro st; rfl
  | cons e evs ih =>
    intro st
    simp only [runGlobalCalls]
    rw [ih]
    rfl

/-- C6: the two limiters share no state — any sequence of heavy-limiter
invocations leaves `globalIpHits` untouched (so every later global
admission decision is unchanged), and any sequence of global-limiter
invocations leaves `heavyIpHits` untouched. -/
theorem limiter_stores_independent (maxG maxH : Nat) (wG wH : Int)
    (st : ServerState) (evs : List (String × Int)) :
    (runHeavyCalls maxH wH st evs).globalStore = st.globalStore ∧
    (runGlobalCalls maxG wG st evs).heavyStore = st.heavyStore ∧
    (∀ (ip : String) (now : Int),
      limiterStep (runHeavyCalls maxH wH st evs).globalStore ip now maxG wG =
        limiterStep st.globalStore ip now maxG wG) ∧
    (∀ (ip : String) (now : Int),
      limiterStep (runGlobalCalls maxG wG st evs).heavyStore ip now maxH wH =
        limiterStep st.heavyStore ip now maxH wH) := by
  refine ⟨runHeavyCalls_globalStore maxH wH evs st,
    runGlobalCalls_heavyStore maxG wG evs st, ?_, ?_⟩
  · intro ip now
    rw [runHeavyCalls_globalStore]
  · intro ip now
    rw [runGlobalCalls_heavyStore]

/-! ### Heavy route pipeline: missing payload vs. the gate -/

/-- C4 (counterexample): a `/convert` request with no payload that passes
both limiters does acquire a concurrency-gate slot — the gate middleware
runs before multer and before the handler's `req.file` check, so the
counter rises from 0 to 1 while the 400 response is produced; and with
the gate full (counter 2 = cap) the same payload-less request is answered
429, not a client error.  The claim's "rejected before any
concurrency-gate slot is acquired" is therefore false on the code. -/
theorem gate_slot_acquired_without_payload :
    (convertRoute emptyStore emptyStore 0 "192.0.2.4" 0 60 10 900000 2
        false false "" "").slotAcquired = true ∧
    (convertRoute emptyStore emptyStore 0 "192.0.2.4" 0 60 10 900000 2
        false false "" "").resp.status = 400 ∧
    (convertRoute emptyStore emptyStore 0 "192.0.2.4" 0 60 10 900000 2
        false false "" "").activeDuring = 1 ∧
    (convertRoute emptyStore emptyStore 2 "192.0.2.4" 0 60 10 900000 2
        false false "" "").resp.status = 429 := by
  decide

/-- C4 (amended): a heavy-route request with no input payload that passes
both limiters is rejected 400 after the gate: below the cap it acquires a
slot (counter `active + 1` while responding), and the slot is released
when the response finishes, so the counter returns to `active`; at or
above the cap it is instead denied 429 with the busy response before the
payload check, without touching the counter. -/
theorem missing_payload_after_gate_spec
    (gstore hstore : Store) (active : Int) (ip : String) (now : Int)
    (maxG maxH : Nat) (W cap : Int) (error : Bool) (stdout stderr : String)
    (hg : (limiterStep gstore ip now maxG W).2 = RateDecision.allowed)
    (hh : (limiterStep hstore ip now maxH W).2 = RateDecision.allowed)
    (ha : 0 ≤ active) :
    (active < cap →
      (convertRoute gstore hstore active ip now maxG maxH W cap false error stdout stderr).resp =
        ⟨400, none, "No file uploaded."⟩ ∧
      (convertRoute gstore hstore active ip now maxG maxH W cap false error stdout stderr).slotAcquired = true ∧
      (convertRoute gstore hstore active ip now maxG maxH W cap false error stdout stderr).activeDuring = active + 1 ∧
      (convertRoute gstore hstore active ip now maxG maxH W cap false error stdout stderr).activeAfter = active) ∧
    (cap ≤ active →
      (convertRoute gstore hstore active ip now maxG maxH W cap false error stdout stderr).resp = busyResponse ∧
      (convertRoute gstore hstore active ip now maxG maxH W cap false error stdout stderr).slotAcquired = false ∧
      (convertRoute gstore hstore active ip now maxG maxH W cap false error stdout stderr).activeDuring = active ∧
      (convertRoute gstore hstore active ip now maxG maxH W cap false error stdout stderr).activeAfter = active) := by
  constructor
  · intro hcap
    have hga : gateAdmit active cap = (active + 1, none) := by
      unfold gateAdmit
      rw [if_neg (by omega)]
    have hrel1 : jobRelease (active + 1, false) = (active, true) := jobRelease_once active ha
    simp only [convertRoute, hg, hh, hga]
    simp [hrel1, jobRelease]
    omega
  · intro hcap
    have hga : gateAdmit active cap = (active, some busyResponse) := by
      unfold gateAdmit
      rw [if_pos (by omega)]
    simp only [convertRoute, hg, hh, hga]
    simp

/-- C4 (witness): concrete instance of the amended behavior below the cap. -/
theorem missing_payload_after_gate_spec_witness :
    (convertRoute emptyStore emptyStore 1 "198.51.100.23" 0 60 10 900000 2
        false true "o" "e").resp = ⟨400, none, "No file uploaded."⟩ ∧
    (convertRoute emptyStore emptyStore 1 "198.51.100.23" 0 60 10 900000 2
        false true "o" "e").activeAfter = 1 := by
  have h := (missing_payload_after_gate_spec emptyStore emptyStore 1 "198.51.100.23" 0
      60 10 900000 2 true "o" "e" (by decide) (by decide) (by decide)).1 (by decide)
  exact ⟨h.1, h.2.2.2⟩

/-! ### Outcome classification -/

/-- C5 (counterexample): the `/unlock` job's diagnostics-combined text
contains the marker `password` (in stdout), yet with a zero exit the
route downloads the result (200) instead of answering 401 — `/unlock`
never looks at stdout.  This refutes the claim's "for every heavy job". -/
theorem unlock_ignores_stdout_marker :
    checkPasswordError "" "Password required" = true ∧
    unlockExecCallback false "Password required" "" =
      ⟨200, none, "unlocked.pdf"⟩ := by
  decide

/-- C5 (amended): for the `/convert`, `/compress` and `/extract` jobs — the
ones classified through `checkPasswordError` — a credential/encryption
marker in the combined, lower-cased diagnostic text yields the 401
`PASSWORD_REQUIRED` outcome regardless of the exit status (the credential
check runs before the generic-failure check); `/unlock` instead tests
only `error || stderr.toLowerCase().includes('password')`. -/
theorem credential_marker_priority_spec (error : Bool) (stdout stderr : String)
    (h : checkPasswordError stderr stdout = true) :
    convertExecCallback error stdout stderr = ⟨401, none, "PASSWORD_REQUIRED"⟩ ∧
    compressExecCallback error stdout stderr = ⟨401, none, "PASSWORD_REQUIRED"⟩ ∧
    (∀ (fs : List String) (inputPath outputDir : String) (mode format : Option String)
        (zipOk : Bool),
      (extractExecCallback fs inputPath outputDir mode format error stdout stderr zipOk).resp =
        ⟨401, none, "PASSWORD_REQUIRED"⟩) := by
  refine ⟨?_, ?_, ?_⟩
  · simp [convertExecCallback, h]
  · simp [compressExecCallback, h]
  · intro fs inputPath outputDir mode format zipOk
    simp [extractExecCallback, h]

/-- C5 (witness): an erroring exit whose stderr mentions encryption is still
classified 401 by `/convert`. -/
theorem credential_marker_priority_spec_witness :
    convertExecCallback true "" "Error: file is Encrypted" =
      ⟨401, none, "PASSWORD_REQUIRED"⟩ := by
  exact (credential_marker_priority_spec true "" "Error: file is Encrypted" (by decide)).1

/-- C7 (counterexample): the `/unlock` job with an erroring exit and no
credential marker anywhere in its diagnostics is answered 401
(`Incorrect Password or File Error`), not the 500-class generic failure
the claim requires for every heavy job. -/
theorem unlock_error_without_marker_is_401 :
    checkPasswordError "" "" = false ∧
    unlockExecCallback true "" "" = ⟨401, none, "Incorrect Password or File Error"⟩ := by
  decide

/-- C7 (amended): for `/convert` and `/compress` the 500 generic failure
occurs iff the subprocess erred and no credential marker was found; for
`/extract` additionally a failure of the zip-packaging step yields a 500;
`/unlock` answers 401 for every erroring exit (or stderr containing
`password`) and has no 500 outcome at all. -/
theorem generic_failure_spec (error : Bool) (stdout stderr : String) :
    ((convertExecCallback error stdout stderr).status = 500 ↔
      error = true ∧ checkPasswordError stderr stdout = false) ∧
    ((compressExecCallback error stdout stderr).status = 500 ↔
      error = true ∧ checkPasswordError stderr stdout = false) ∧
    (∀ (fs : List String) (inputPath outputDir : String) (mode format : Option String)
        (zipOk : Bool),
      ((extractExecCallback fs inputPath outputDir mode format error stdout stderr
          zipOk).resp.status = 500 ↔
        checkPasswordError stderr stdout = false ∧
          (error = true ∨ (readdirCount fs outputDir ≠ 0 ∧ zipOk = false)))) ∧
    ((unlockExecCallback error stdout stderr).status = 401 ↔
      (error = true ∨ strIncludes (lowerStr stderr) "password" = true)) ∧
    ((unlockExecCallback error stdout stderr).status ≠ 500) := by
  refine ⟨?_, ?_, ?_, ?_, ?_⟩
  · cases error <;> cases hb : checkPasswordError stderr stdout <;>
      simp [convertExecCallback, hb]
  · cases error <;> cases hb : checkPasswordError stderr stdout <;>
      simp [compressExecCallback, hb]
  · intro fs inputPath outputDir mode format zipOk
    cases error <;> cases hb : checkPasswordError stderr stdout <;>
      by_cases hn : readdirCount fs outputDir = 0 <;> cases zipOk <;>
        simp [extractExecCallback, hb, hn]
  · cases error <;> cases hbp : strIncludes (lowerStr stderr) "password" <;>
      simp [unlockExecCallback, hbp]
  · cases error <;> cases hbp : strIncludes (lowerStr stderr) "password" <;>
      simp [unlockExecCallback, hbp]

/-- C7 (witness): a concrete erroring `/convert` exit with no marker is a
500, while the same exit on `/unlock` is not. -/
theorem generic_failure_spec_witness :
    (convertExecCallback true "x" "boom").status = 500 ∧
    (unlockExecCallback true "" "").status ≠ 500 := by
  constructor
  · exact ((generic_failure_spec true "x" "boom").1).mpr ⟨rfl, by decide⟩
  · exact (generic_failure_spec true "" "").2.2.2.2

/-! ### Cleanup helper -/

lemma guardedUnlink_spec (fs : List String) (po : Option String) :
    ∃ f, guardedUnlink fs po = some f ∧ (∀ q ∈ f, q ∈ fs) ∧
      (∀ p, po = some p → p ∉ f) := by
  cases po with
  | none => exact ⟨fs, rfl, fun q hq => hq, by simp⟩
  | some p =>
    by_cases h : existsSync fs p = true
    · refine ⟨fs.filter (fun q => decide (q ≠ p)), ?_, ?_, ?_⟩
      · simp [guardedUnlink, unlinkSyncM, h]
      · intro q hq
        exact (List.mem_filter.mp hq).1
      · intro p' hp' hmem
        have hpe : p' = p := by injection hp' with h2; exact h2.symm
        subst hpe
        have := (List.mem_filter.mp hmem).2
        simp at this
    · refine ⟨fs, ?_, fun q hq => hq, ?_⟩
      · simp [guardedUnlink, h]
      · intro p' hp' hmem
        have hpe : p' = p := by injection hp' with h2; exact h2.symm
        subst hpe
        exact h (by simpa [existsSync] using hmem)

lemma guardedRm_spec (fs : List String) (po : Option String) :
    ∃ f, guardedRm fs po = some f ∧ (∀ q ∈ f, q ∈ fs) ∧
      (∀ r, po = some r → r ∉ f) := by
  cases po with
  | none => exact ⟨fs, rfl, fun q hq => hq, by simp⟩
  | some r =>
    by_cases h : existsSync fs r = true
    · refine ⟨rmSyncRF fs r, ?_, ?_, ?_⟩
      · simp [guardedRm, h]
      · intro q hq
        exact (List.mem_filter.mp hq).1
      · intro r' hr' hmem
        have hre : r' = r := by injection hr' with h2; exact h2.symm
        subst hre
        have := (List.mem_filter.mp hmem).2
        simp at this
    · refine ⟨fs, ?_, fun q hq => hq, ?_⟩
      · simp [guardedRm, h]
      · intro r' hr' hmem
        have hre : r' = r := by injection hr' with h2; exact h2.symm
        subst hre
        exact h (by simpa [existsSync] using hmem)

lemma cleanup_spec (fs : List String) (i o d : Option String) :
    (cleanupTry fs i o d).isSome = true ∧
    (∀ q ∈ cleanup fs i o d, q ∈ fs) ∧
    (∀ p, i = some p → p ∉ cleanup fs i o d) ∧
    (∀ p, o = some p → p ∉ cleanup fs i o d) ∧
    (∀ r, d = some r → r ∉ cleanup fs i o d) := by
  obtain ⟨f1, h1, h1sub, h1not⟩ := guardedUnlink_spec fs i
  obtain ⟨f2, h2, h2sub, h2not⟩ := guardedUnlink_spec f1 o
  obtain ⟨f3, h3, h3sub, h3not⟩ := guardedRm_spec f2 d
  have hct : cleanupTry fs i o d = some f3 := by
    simp [cleanupTry, h1, h2, h3]
  have hcl : cleanup fs i o d = f3 := by
    simp [cleanup, hct]
  refine ⟨by rw [hct]; rfl, ?_, ?_, ?_, ?_⟩
  · intro q hq
    rw [hcl] at hq
    exact h1sub q (h2sub q (h3sub q hq))
  · intro p hp hmem
    rw [hcl] at hmem
    exact h1not p hp (h2sub p (h3sub p hmem))
  · intro p hp hmem
    rw [hcl] at hmem
    exact h2not p hp (h3sub p hmem)
  · intro r hr hmem
    rw [hcl] at hmem
    exact h3not r hr hmem

lemma cleanup_fixed (f : List String) (i o d : Option String)
    (hi : ∀ p, i = some p → p ∉ f) (ho : ∀ p, o = some p → p ∉ f)
    (hd : ∀ r, d = some r → r ∉ f) : cleanup f i o d = f := by
  have g1 : guardedUnlink f i = some f := by
    cases i with
    | none => rfl
    | some p =>
      have hp := hi p rfl
      simp [guardedUnlink, existsSync, hp]
  have g2 : guardedUnlink f o = some f := by
    cases o with
    | none => rfl
    | some p =>
      have hp := ho p rfl
      simp [guardedUnlink, existsSync, hp]
  have g3 : guardedRm f d = some f := by
    cases d with
    | none => rfl
    | some r =>
      have hr := hd r rfl
      simp [guardedRm, existsSync, hr]
  have hct : cleanupTry f i o d = some f := by
    simp only [cleanupTry, g1, g2, g3]
  unfold cleanup
  rw [hct]

/-- C9: the `cleanup` helper is total and idempotent — its body never raises
(the `catch` is dead code: every `unlinkSync` is guarded by `existsSync`,
and the recursive-force `rmSync` never raises), and a second invocation
with the same arguments on the filesystem the first one produced is a
no-op, so overlapping exit paths of one job may all fire it safely. -/
theorem cleanup_total_idempotent (fs : List String) (i o d : Option String) :
    (cleanupTry fs i o d).isSome = true ∧
    cleanup (cleanup fs i o d) i o d = cleanup fs i o d := by
  obtain ⟨hsome, hsub, hi, ho, hd⟩ := cleanup_spec fs i o d
  exact ⟨hsome, cleanup_fixed (cleanup fs i o d) i o d hi ho hd⟩

/-- C8: an extraction job whose subprocess exits cleanly with no credential
marker but produces zero artifacts in its output directory is answered
422 with the mode-specific message, every transient artifact (the staged
input, the output directory) is cleaned up, and the outcome is neither
the 500 failure nor a 200 success. -/
theorem extract_empty_result_spec (fs : List String) (inputPath outputDir : String)
    (mode format : Option String) (stdout stderr : String) (zipOk : Bool)
    (hpw : checkPasswordError stderr stdout = false)
    (hn : readdirCount fs outputDir = 0) :
    (extractExecCallback fs inputPath outputDir mode format false stdout stderr zipOk).resp =
      ⟨422, none,
        if orDefault mode "images" = "images" then
          "No embedded images found. Try \"Extract Pages\" instead."
        else "Could not render pages."⟩ ∧
    (extractExecCallback fs inputPath outputDir mode format false stdout stderr zipOk).fs =
      cleanup fs (some inputPath) none (some outputDir) ∧
    inputPath ∉ (extractExecCallback fs inputPath outputDir mode format false stdout stderr zipOk).fs ∧
    outputDir ∉ (extractExecCallback fs inputPath outputDir mode format false stdout stderr zipOk).fs ∧
    (∀ q ∈ (extractExecCallback fs inputPath outputDir mode format false stdout stderr zipOk).fs,
      strStartsWith q (outputDir ++ "/") = false) ∧
    (extractExecCallback fs inputPath outputDir mode format false stdout stderr zipOk).resp.status ≠ 500 ∧
    (extractExecCallback fs inputPath outputDir mode format false stdout stderr zipOk).resp.status ≠ 200 := by
  have hcall : extractExecCallback fs inputPath outputDir mode format false stdout stderr zipOk =
      ⟨⟨422, none,
          if orDefault mode "images" = "images" then
            "No embedded images found. Try \"Extract Pages\" instead."
          else "Could not render pages."⟩,
        cleanup fs (some inputPath) none (some outputDir)⟩ := by
    simp [extractExecCallback, hpw, hn]
  obtain ⟨_, hsub, hi, _, hd⟩ := cleanup_spec fs (some inputPath) none (some outputDir)
  have hfil : fs.filter (fun p => strStartsWith p (outputDir ++ "/")) = [] := by
    rw [readdirCount] at hn
    exact List.length_eq_zero.mp hn
  rw [hcall]
  refine ⟨rfl, rfl, hi inputPath rfl, hd outputDir rfl, ?_, ?_, ?_⟩
  · intro q hq
    have hqfs : q ∈ fs := hsub q hq
    by_contra hcon
    have hqmem : q ∈ fs.filter (fun p => strStartsWith p (outputDir ++ "/")) := by
      rw [List.mem_filter]
      exact ⟨hqfs, by simpa using hcon⟩
    rw [hfil] at hqmem
    exact absurd hqmem (List.not_mem_nil q)
  · by_cases hm : orDefault mode "images" = "images" <;> simp [hm]
  · by_cases hm : orDefault mode "images" = "images" <;> simp [hm]

/-- C8 (witness): a concrete empty extraction — staged input present, no
artifact under the output directory. -/
theorem extract_empty_result_spec_witness :
    (extractExecCallback ["uploads/in1"] "uploads/in1" "uploads/extract_7" (some "images")
        (some "png") false "" "" true).resp =
      ⟨422, none,
        if orDefault (some "images") "images" = "images" then
          "No embedded images found. Try \"Extract Pages\" instead."
        else "Could not render pages."⟩ ∧
    "uploads/in1" ∉ (extractExecCallback ["uploads/in1"] "uploads/in1" "uploads/extract_7"
        (some "images") (some "png") false "" "" true).fs := by
  have h := extract_empty_result_spec ["uploads/in1"] "uploads/in1" "uploads/extract_7"
      (some "images") (some "png") "" "" true (by decide) (by decide)
  exact ⟨h.1, h.2.2.1⟩

/-! ### File-size helper and compression strategy -/

/-- C10: `getFileSizeMB` is total — the stat size divided by 1024·1024 when
the stat succeeds, 0 when it raises; consequently a `/compress` request
in `target` mode whose staged input cannot be stat-ed (originalSize 0)
still selects the `/printer` Ghostscript profile for every non-negative,
infinite or non-numeric target value, instead of erroring. -/
theorem getFileSizeMB_total_strategy_spec :
    getFileSizeMB none = 0 ∧
    (∀ sz : Nat, getFileSizeMB (some sz) = (sz : Rat) / (1024 * 1024)) ∧
    (∀ v : JsNum,
      (v = JsNum.nan ∨ v = JsNum.posInf ∨ ∃ q : Rat, v = JsNum.finite q ∧ 0 ≤ q) →
      compressStrategy (some "target") v (getFileSizeMB none) = "/printer") := by
  refine ⟨rfl, fun sz => rfl, ?_⟩
  intro v hv
  have h0 : getFileSizeMB none = 0 := rfl
  rw [h0]
  rcases hv with hv | hv | ⟨q, hv, hq⟩
  · subst hv; decide
  · subst hv; decide
  · subst hv
    rcases eq_or_lt_of_le hq with hq0 | hq0
    · rw [← hq0]
      decide
    · simp [compressStrategy, JsNum.div, JsNum.jge, hq0]

/-- C10 (witness): the two stat-failure cases — target value 0 (ratio NaN)
and non-numeric target (NaN) — both select `/printer`. -/
theorem getFileSizeMB_total_strategy_spec_witness :
    compressStrategy (some "target") (JsNum.finite 0) (getFileSizeMB none) = "/printer" ∧
    compressStrategy (some "target") JsNum.nan (getFileSizeMB none) = "/printer" := by
  refine ⟨getFileSizeMB_total_strategy_spec.2.2 (JsNum.finite 0)
      (Or.inr (Or.inr ⟨0, rfl, le_refl 0⟩)),
    getFileSizeMB_total_strategy_spec.2.2 JsNum.nan (Or.inl rfl)⟩
